import Mathlib

set_option linter.unusedVariables false

/-!
Verification of the pagination, region fan-out, enrichment-chain and
row-projection behaviour of the aws-reporting-scripts repository.

Each definition is a shallow embedding of a Python function of the
repository; the source file and function are named in its doc comment.
Remote AWS clients are modelled as records of total response functions,
and Python exceptions are modelled with an explicit error type.
Generator loops of the form `while next_token:` are embedded as
fuel-indexed recursions returning `Option`; a result of `none` for every
fuel value models an infinite loop, and `some (items, calls)` models the
loop finishing after `calls` remote calls having yielded `items`.
-/

/-- Python exceptions that the scripts can raise or catch. -/
inductive PyErr where
  | keyError
  | indexError
  | stopIteration
  deriving DecidableEq

namespace CfnDump

/-- Response of the paged call `cfn_client.list_stacks` as consumed by
`get_stacks` in cfn_dump_resources.py: a `StackSummaries` collection and an
optional `NextToken` cursor.  The element type is generic because the loop
never inspects the items it yields. -/
structure StackListResp (α : Type) where
  stackSummaries : List α
  nextToken : Option String

/-- Embedding of `get_stacks` (aws_reporting_scripts/cfn_dump_resources.py,
lines 48-79; the copy at src/cfn_dump_resources.py lines 44-75 is
identical).  The Python loop starts with `next_token = True`, issues the
call without a cursor first, re-issues it with `NextToken=next_token`
whenever the response carried a `NextToken` key whose value is truthy
(a non-empty string), and stops when the key is missing or its value is
the empty string.  `call none` is the cursor-less call and `call (some t)`
the call carrying cursor `t`.  The fuel argument bounds the number of loop
iterations: `none` means the loop was still running when the fuel ran out,
`some (items, calls)` means the loop finished after `calls` calls having
yielded `items` in order. -/
def get_stacks (call : Option String → StackListResp α) :
    Nat → Option String → Option (List α × Nat)
  | 0, _ => none
  | fuel + 1, cur =>
    let resp := call cur
    match resp.nextToken with
    | some t =>
      if t = "" then
        some (resp.stackSummaries, 1)
      else
        match get_stacks call fuel (some t) with
        | none => none
        | some (items, calls) => some (resp.stackSummaries ++ items, calls + 1)
    | none => some (resp.stackSummaries, 1)

/-- Cursor naming scheme used by the mock paged sources below: page 0 is
reached by the cursor-less call, page `i + 1` by a cursor of length
`i + 1`. -/
def cursorFor : Nat → Option String
  | 0 => none
  | i + 1 => some (String.mk (List.replicate (i + 1) 'a'))

/-- Page index encoded by a cursor under the scheme of `cursorFor`. -/
def decodeCursor : Option String → Nat
  | none => 0
  | some s => s.length

/-- Mock paged source built from a list of pages whose cursors chain
correctly: the response for page `i` carries the items `ps[i]` and a
non-empty `NextToken` exactly when a page `i + 1` exists. -/
def chainCall (ps : List (List α)) (cur : Option String) : StackListResp α :=
  let i := decodeCursor cur
  { stackSummaries := ps.getD i []
    nextToken :=
      if i + 1 < ps.length then
        some (String.mk (List.replicate (i + 1) 'a'))
      else none }

/-- Mock paged source that always returns the same page and the same
non-empty cursor, so its cursor sequence repeats forever. -/
def constCall : Option String → StackListResp String :=
  fun _ => { stackSummaries := ["stack-1"], nextToken := some "T" }

/-- A stack summary as used by `main` of cfn_dump_resources.py: the three
fields the row projection reads. -/
structure Stack where
  stackName : String
  stackId : String
  stackStatus : String

/-- A stack resource summary as used by `main`: `PhysicalResourceId` is
optional because the remote omits the key when the physical resource was
deleted outside of CloudFormation. -/
structure Resource where
  logicalResourceId : String
  resourceType : String
  physicalResourceId : Option String

/-- Header row written by `main` of
aws_reporting_scripts/cfn_dump_resources.py (lines 26-27). -/
def header : List String :=
  ["Region", "StackName", "LogicalResourceId", "ResourceType",
   "PhysicalResourceId", "StackID", "StackStatus"]

/-- One data row written by `main` of
aws_reporting_scripts/cfn_dump_resources.py (lines 33-46): a missing
`PhysicalResourceId` key raises KeyError, which is caught and replaced by
the sentinel string. -/
def resourceRow (region : String) (stack : Stack) (resource : Resource) :
    List String :=
  [region, stack.stackName, resource.logicalResourceId, resource.resourceType,
   resource.physicalResourceId.getD "[Deleted]", stack.stackId,
   stack.stackStatus]

/-- The data rows written for one region by the nested loops of `main`
(aws_reporting_scripts/cfn_dump_resources.py, lines 29-46).  `stacks` is
the sequence yielded by `get_stacks` and `resourcesOf stackId` the
sequence yielded by `get_resources` for that stack; the pagination
lemmas about `get_stacks` relate those sequences to the remote pages. -/
def rowsFor (region : String) (stackList : List Stack)
    (resourcesOf : String → List Resource) : List (List String) :=
  (stackList.map (fun stack =>
    (resourcesOf stack.stackId).map (resourceRow region stack))).flatten

/-- The stack of the worked end-to-end example. -/
def stack1 : Stack :=
  { stackName := "stack1name", stackId := "stack-id-1",
    stackStatus := "CREATE_COMPLETE" }

/-- Two resources of the worked example: one with a physical ID, one whose
physical resource was deleted outside of CloudFormation. -/
def demoResources : List Resource :=
  [{ logicalResourceId := "r1", resourceType := "AWS::EC2::Instance",
     physicalResourceId := some "p-1" },
   { logicalResourceId := "r2", resourceType := "AWS::EC2::VPC",
     physicalResourceId := none }]

end CfnDump

namespace CfnDumpSrc

/-- Header row written by `main` of the variant at
src/cfn_dump_resources.py (lines 30-36); note the different column
order. -/
def header : List String :=
  ["Region", "LogicalResourceId", "PhysicalResourceId", "ResourceType",
   "StackName", "StackID", "StackStatus"]

/-- Embedding of `get_resources` of src/cfn_dump_resources.py (lines
77-79).  The source body is `return ''`: it ignores the client and the
stack and returns the empty string, although its doc string says it
yields all resources of the stack.  `cfn_client` is the function giving
the resources the remote would report. -/
def get_resources (cfn_client : String → List CfnDump.Resource)
    (stack_id : String) : String := ""

/-- The data rows written for one region by `main` of
src/cfn_dump_resources.py (lines 38-42).  The inner loop iterates over
the string returned by `get_resources` (hence over its characters) and
writes the single-field row `[region]` for each. -/
def rowsFor (region : String) (stackList : List CfnDump.Stack)
    (cfn_client : String → List CfnDump.Resource) : List (List String) :=
  (stackList.map (fun stack =>
    (get_resources cfn_client stack.stackId).data.map
      (fun _ => [region]))).flatten

end CfnDumpSrc

namespace SsmAgent

/-- One element of the `Reservations` collection of a `describe_instances`
response: a reservation holds a list of instances. -/
structure Reservation (α : Type) where
  instances : List α

/-- Response of the paged call `ec2_client.describe_instances` as consumed
by `get_instances` in ssm_agent_audit.py. -/
structure DescInstResp (α : Type) where
  reservations : List (Reservation α)
  nextToken : Option String

/-- Embedding of `get_instances` (src/ssm_agent_audit.py lines 76-101 and
aws_reporting_scripts/ssm_agent_audit.py lines 62-87, which are
identical).  The loop is the same `while next_token:` pattern as
`get_stacks`, but each page yields the instances of every reservation of
the page, in order. -/
def get_instances (call : Option String → DescInstResp α) :
    Nat → Option String → Option (List α × Nat)
  | 0, _ => none
  | fuel + 1, cur =>
    let resp := call cur
    let pageItems := (resp.reservations.map (fun r => r.instances)).flatten
    match resp.nextToken with
    | some t =>
      if t = "" then
        some (pageItems, 1)
      else
        match get_instances call fuel (some t) with
        | none => none
        | some (items, calls) => some (pageItems ++ items, calls + 1)
    | none => some (pageItems, 1)

/-- The paged source seen through the page flattening of `get_instances`:
each response is collapsed to the instance list it contributes. -/
def instReduce (call : Option String → DescInstResp α) :
    Option String → CfnDump.StackListResp α :=
  fun c =>
    { stackSummaries := (((call c).reservations).map (fun r => r.instances)).flatten
      nextToken := (call c).nextToken }

/-- Mock `describe_instances` source with correctly chained cursors:
page `i` holds the reservations `qs[i]`, each reservation being a list
of instances. -/
def chainCallInst (qs : List (List (List α))) :
    Option String → DescInstResp α :=
  fun cur =>
    let i := CfnDump.decodeCursor cur
    { reservations := (qs.getD i []).map (fun l => { instances := l })
      nextToken :=
        if i + 1 < qs.length then
          some (String.mk (List.replicate (i + 1) 'a'))
        else none }

/-- Header row written by `main` of ssm_agent_audit.py (both variants). -/
def header : List String :=
  ["Region", "InstanceID", "Name", "EC2Platform", "SSMPingStatus",
   "SSMAgentVersion", "SSMPlatformType", "SSMPlatformName",
   "SSMPlatformVersion"]

/-- One data row written by `main` of ssm_agent_audit.py (lines 46-54 of
the src variant): the region, instance ID, name tag, EC2 platform and the
five SSM agent fields. -/
def instanceRow (region instanceId instName platform : String)
    (ssm : String × String × String × String × String) : List String :=
  [region, instanceId, instName, platform,
   ssm.1, ssm.2.1, ssm.2.2.1, ssm.2.2.2.1, ssm.2.2.2.2]

end SsmAgent

namespace SsmPatch

/-- One element of the `WindowIdentities` collection of a
`describe_maintenance_windows` response. -/
structure WindowIdentity where
  windowId : String

/-- Response of the paged call `ssm_client.describe_maintenance_windows`
as consumed by `get_maintenance_windows` in ssm_patching_audit.py. -/
structure MwListResp where
  windowIdentities : List WindowIdentity
  nextToken : Option String

/-- Embedding of `get_maintenance_windows` (src/ssm_patching_audit.py,
lines 114-131): the same `while next_token:` pattern, yielding the
`WindowId` of each window identity. -/
def get_maintenance_windows (call : Option String → MwListResp) :
    Nat → Option String → Option (List String × Nat)
  | 0, _ => none
  | fuel + 1, cur =>
    let resp := call cur
    let pageItems := resp.windowIdentities.map (fun w => w.windowId)
    match resp.nextToken with
    | some t =>
      if t = "" then
        some (pageItems, 1)
      else
        match get_maintenance_windows call fuel (some t) with
        | none => none
        | some (items, calls) => some (pageItems ++ items, calls + 1)
    | none => some (pageItems, 1)

/-- Mock `describe_maintenance_windows` source that always returns the
same non-empty cursor. -/
def constMwCall : Option String → MwListResp :=
  fun _ =>
    { windowIdentities := [{ windowId := "mw-1" }], nextToken := some "T" }

/-- One element of the `Tasks` collection of a
`describe_maintenance_window_tasks` response; only `WindowTaskId` is
read. -/
structure Task where
  windowTaskId : String

/-- Response of `describe_maintenance_window_tasks`. -/
structure TaskListResp where
  tasks : List Task

/-- A dictionary of the shape `{'Key': ..., 'Values': [...]}` as it
occurs in `Targets` lists and patch filter lists. -/
structure KV where
  key : String
  values : List String

/-- Response of `get_maintenance_window_task`.  `operationParams` models
the nested path `TaskInvocationParameters / RunCommand / Parameters /
Operation`: it is `none` when any key of the path is missing (KeyError in
the source), otherwise the list of values of `Operation`. -/
structure MWTaskResp where
  targets : List KV
  taskArn : String
  operationParams : Option (List String)

/-- One element of the outer `Targets` collection of a
`describe_maintenance_window_targets` response; its field `targets` is
the inner `Targets` list of the entry. -/
structure TargetEntry where
  targets : List KV

/-- Response of `describe_maintenance_window_targets`. -/
structure TargetsResp where
  targets : List TargetEntry

/-- Response of `get_patch_baseline_for_patch_group`. -/
structure BaselineResp where
  baselineId : String

/-- One element of `ApprovalRules / PatchRules` of a `get_patch_baseline`
response. -/
structure PatchRule where
  patchFilters : List KV
  approveAfterDays : Nat

/-- Response of `get_patch_baseline`.  `patchRules` models the path
`ApprovalRules / PatchRules`; `patchFilters` of each rule models
`PatchFilterGroup / PatchFilters`. -/
structure BaselineDetail where
  name : String
  operatingSystem : String
  patchRules : List PatchRule

/-- The SSM client as a record of the five remote calls the enrichment
chain of ssm_patching_audit.py issues; each is modelled as a total
response function. -/
structure SsmClient where
  describe_maintenance_window_tasks : String → TaskListResp
  get_maintenance_window_task : String → String → MWTaskResp
  describe_maintenance_window_targets : String → String → TargetsResp
  get_patch_baseline_for_patch_group : String → BaselineResp
  get_patch_baseline : String → BaselineDetail

/-- Embedding of `get_maint_window_task` (src/ssm_patching_audit.py,
lines 145-155): always issues `describe_maintenance_window_tasks` (one
call), takes `Tasks[0]['WindowTaskId']`, and an IndexError on the empty
task list is caught, leaving the empty string.  The second component
counts the remote calls made. -/
def get_maint_window_task (client : SsmClient) (maint_window_id : String) :
    String × Nat :=
  let task_list := client.describe_maintenance_window_tasks maint_window_id
  (((task_list.tasks.head?).map (fun t => t.windowTaskId)).getD "", 1)

/-- Embedding of `get_task_info` (src/ssm_patching_audit.py, lines
157-173).  When `task_id` is falsy (the empty string) no remote call is
made and three empty strings are returned.  Otherwise the task is
fetched; the target ID is taken with `next(...)` over `Targets` looking
for the key `WindowTargetIds`, which raises an uncaught StopIteration
when no entry matches, then `['Values'][0]` raises an uncaught IndexError
when the values are empty.  Only the `Operation` extraction is inside a
try block. -/
def get_task_info (client : SsmClient) (maint_window_id task_id : String) :
    Except PyErr ((String × String × String) × Nat) :=
  if task_id ≠ "" then
    let maint_window_task :=
      client.get_maintenance_window_task maint_window_id task_id
    match maint_window_task.targets.find? (fun item => item.key = "WindowTargetIds") with
    | none => Except.error PyErr.stopIteration
    | some item =>
      match item.values.head? with
      | none => Except.error PyErr.indexError
      | some target_id =>
        let operation := ((maint_window_task.operationParams.getD []).head?).getD ""
        Except.ok ((target_id, maint_window_task.taskArn, operation), 1)
  else
    Except.ok (("", "", ""), 0)

/-- Embedding of `get_target_patch_tag` (src/ssm_patching_audit.py, lines
175-191).  When `target_id` is falsy no remote call is made and the empty
string is returned.  Otherwise the targets are fetched; `Targets[0]`
raising IndexError is caught (leaving the empty tag), the `next(...)`
search for the key `tag:Patch Group` raises StopIteration, which the
`except (KeyError, IndexError)` clause does NOT catch, and an IndexError
on `['Values'][0]` is caught. -/
def get_target_patch_tag (client : SsmClient)
    (maint_window_id target_id : String) : Except PyErr (String × Nat) :=
  if target_id ≠ "" then
    let target_list :=
      client.describe_maintenance_window_targets maint_window_id target_id
    match target_list.targets.head? with
    | none => Except.ok ("", 1)
    | some entry =>
      match entry.targets.find? (fun item => item.key = "tag:Patch Group") with
      | none => Except.error PyErr.stopIteration
      | some item =>
        match item.values.head? with
        | none => Except.ok ("", 1)
        | some v => Except.ok (v, 1)
  else
    Except.ok ("", 0)

/-- Embedding of `get_baseline_id` (src/ssm_patching_audit.py, lines
193-199): when `patch_tag` is falsy no remote call is made and the empty
string is returned; otherwise one call resolves the baseline ID. -/
def get_baseline_id (client : SsmClient) (patch_tag : String) :
    String × Nat :=
  if patch_tag ≠ "" then
    ((client.get_patch_baseline_for_patch_group patch_tag).baselineId, 1)
  else
    ("", 0)

/-- Embedding of `get_baseline_info` (src/ssm_patching_audit.py, lines
201-215).  When `baseline_id` is falsy no remote call is made and five
empty strings are returned.  Otherwise the baseline is fetched and none
of the extractions is inside a try block: `PatchRules[0]` raises an
uncaught IndexError, the `next(...)` searches for `MSRC_SEVERITY` and
`CLASSIFICATION` raise uncaught StopIteration, and `['Values'][0]` on the
severity filter raises an uncaught IndexError.  The approval delay is an
integer in the source and is serialised to a string here. -/
def get_baseline_info (client : SsmClient) (baseline_id : String) :
    Except PyErr ((String × String × String × String × String) × Nat) :=
  if baseline_id ≠ "" then
    let baseline := client.get_patch_baseline baseline_id
    match baseline.patchRules.head? with
    | none => Except.error PyErr.indexError
    | some rule =>
      match rule.patchFilters.find? (fun item => item.key = "MSRC_SEVERITY") with
      | none => Except.error PyErr.stopIteration
      | some sevFilter =>
        match sevFilter.values.head? with
        | none => Except.error PyErr.indexError
        | some sev =>
          match rule.patchFilters.find? (fun item => item.key = "CLASSIFICATION") with
          | none => Except.error PyErr.stopIteration
          | some classFilter =>
            Except.ok ((baseline.name, baseline.operatingSystem, sev,
              ",".intercalate classFilter.values,
              toString rule.approveAfterDays), 1)
  else
    Except.ok (("", "", "", "", ""), 0)

/-- A client whose window has no tasks at all; every other call returns
an empty-shaped response. -/
def emptySsmClient : SsmClient :=
  { describe_maintenance_window_tasks := fun _ => { tasks := [] }
    get_maintenance_window_task := fun _ _ =>
      { targets := [], taskArn := "", operationParams := none }
    describe_maintenance_window_targets := fun _ _ => { targets := [] }
    get_patch_baseline_for_patch_group := fun _ => { baselineId := "" }
    get_patch_baseline := fun _ =>
      { name := "", operatingSystem := "", patchRules := [] } }

/-- A client returning malformed shapes: the task has a `Targets` list
without a `WindowTargetIds` entry, the window target carries no
`tag:Patch Group` tag, and the patch baseline has no `MSRC_SEVERITY`
filter. -/
def malformedSsmClient : SsmClient :=
  { describe_maintenance_window_tasks := fun _ =>
      { tasks := [{ windowTaskId := "task-1" }] }
    get_maintenance_window_task := fun _ _ =>
      { targets := [{ key := "OtherKey", values := ["v"] }]
        taskArn := "arn:aws:task", operationParams := none }
    describe_maintenance_window_targets := fun _ _ =>
      { targets := [{ targets := [{ key := "tag:Name", values := ["web"] }] }] }
    get_patch_baseline_for_patch_group := fun _ => { baselineId := "bl-1" }
    get_patch_baseline := fun _ =>
      { name := "baseline", operatingSystem := "WINDOWS"
        patchRules :=
          [{ patchFilters := [{ key := "CLASSIFICATION", values := ["CriticalUpdates"] }],
             approveAfterDays := 7 }] } }

/-- A client whose window has two tasks. -/
def clientTwoTasks : SsmClient :=
  { emptySsmClient with
    describe_maintenance_window_tasks := fun _ =>
      { tasks := [{ windowTaskId := "t-1" }, { windowTaskId := "t-2" }] } }

/-- A client whose window has one task, agreeing with `clientTwoTasks` on
the first task. -/
def clientOneTask : SsmClient :=
  { emptySsmClient with
    describe_maintenance_window_tasks := fun _ =>
      { tasks := [{ windowTaskId := "t-1" }] } }

/-- Header row written by `main` of src/ssm_patching_audit.py (lines
46-61). -/
def header : List String :=
  ["Account", "Region", "MW ID", "MW Name", "MW Schedule", "MW TZ",
   "Task 1 ID", "Patch Group", "Task", "Operation", "Baseline",
   "Baseline Name", "OS", "Patch Filter (MSRC Sev)",
   "Patch Filter (Class)", "Approval Delay"]

/-- One data row written by `main` of src/ssm_patching_audit.py (lines
77-92), in the exact column order of the source: window info is
(name, schedule, timezone), task info is (target ID, task ARN,
operation) of which positions 1 and 2 are written, and baseline info is
the five baseline fields. -/
def mwRow (account region maint_window_id : String)
    (info : String × String × String) (task_id : String)
    (task_info : String × String × String) (patch_tag baseline_id : String)
    (baseline_info : String × String × String × String × String) :
    List String :=
  [account, region, maint_window_id, info.1, info.2.1, info.2.2, task_id,
   patch_tag, task_info.2.1, task_info.2.2, baseline_id, baseline_info.1,
   baseline_info.2.1, baseline_info.2.2.1, baseline_info.2.2.2.1,
   baseline_info.2.2.2.2]

end SsmPatch

namespace CwAlarms

/-- Embedding of `pretty_statistic`
(aws_reporting_scripts/cw_dump_alarms.py, lines 127-136): a dictionary
lookup whose KeyError is caught, leaving the input unchanged. -/
def pretty_statistic (stat : String) : String :=
  match List.lookup stat [("Average", "avg"), ("Maximum", "max"), ("Minimum", "min")] with
  | some s => s
  | none => stat

/-- Embedding of `pretty_operator`
(aws_reporting_scripts/cw_dump_alarms.py, lines 138-148). -/
def pretty_operator (operator : String) : String :=
  match List.lookup operator
      [("GreaterThanOrEqualToThreshold", ">="),
       ("GreaterThanThreshold", ">"),
       ("LessThanOrEqualToThreshold", "<="),
       ("LessThanThreshold", "<")] with
  | some s => s
  | none => operator

/-- One element of the `Subscriptions` collection of
`list_subscriptions_by_topic`. -/
structure Subscription where
  protocol : String
  endpoint : String

/-- Response of `get_topic_attributes`: `displayName` models the path
`Attributes / DisplayName`, `none` when the key is missing. -/
structure TopicAttrs where
  displayName : Option String

/-- The SNS client of cw_dump_alarms.py as a record of response
functions.  `list_subscriptions_by_topic` gives the full subscription
list the paged helper `helpers.get_items` would yield for a topic. -/
structure SnsClient where
  get_topic_attributes : String → TopicAttrs
  list_subscriptions_by_topic : String → List Subscription

/-- Embedding of `get_topic_name`
(aws_reporting_scripts/cw_dump_alarms.py, lines 150-158): a missing
`DisplayName` raises KeyError, which is caught, leaving the empty
string. -/
def get_topic_name (sns_client : SnsClient) (topic : String) : String :=
  ((sns_client.get_topic_attributes topic).displayName).getD ""

/-- The Python substring test `pat in s`. -/
def pyIn (pat s : String) : Bool :=
  s.data.tails.any (fun t => pat.data.isPrefixOf t)

/-- The subscription join of cw_dump_alarms.py: protocol and endpoint
joined with a colon and a space, pairs joined with commas. -/
def joinSubscriptions (subs : List Subscription) : String :=
  ",".intercalate (subs.map (fun s => s.protocol ++ ": " ++ s.endpoint))

/-- Embedding of the `action0` slot of `main`
(aws_reporting_scripts/cw_dump_alarms.py, lines 65-68): index 0 of the
alarm actions, an IndexError being caught and replaced by the default
marker. -/
def action0 (alarmActions : List String) : String :=
  alarmActions[0]?.getD "No action"

/-- Embedding of the `action1` slot of `main`
(aws_reporting_scripts/cw_dump_alarms.py, lines 69-72). -/
def action1 (alarmActions : List String) : String :=
  alarmActions[1]?.getD "No action"

/-- Embedding of the SNS enrichment block of `main`
(aws_reporting_scripts/cw_dump_alarms.py, lines 74-97), returning the
four columns (Action0 SNS DisplayName, Action0 SNS Subscriptions,
Action1 SNS DisplayName, Action1 SNS Subscriptions).  The source block
initialises all four to the empty string; when `act0` looks like an SNS
topic it resolves `act0`'s display name and subscriptions; when `act1`
looks like an SNS topic the source assigns `action0_sns_subscriptions`
again, from `TopicArn=action0`, and never assigns the two `action1`
variables. -/
def snsFields (sns_client : SnsClient) (act0 act1 : String) :
    String × String × String × String :=
  if pyIn "arn:aws:sns" act0 || pyIn "arn:aws:sns" act1 then
    let p0 :=
      if pyIn "arn:aws:sns" act0 then
        (get_topic_name sns_client act0,
         joinSubscriptions (sns_client.list_subscriptions_by_topic act0))
      else ("", "")
    let action0_sns_subscriptions :=
      if pyIn "arn:aws:sns" act1 then
        joinSubscriptions (sns_client.list_subscriptions_by_topic act0)
      else p0.2
    (p0.1, action0_sns_subscriptions, "", "")
  else ("", "", "", "")

/-- An alarm as read by `main` of cw_dump_alarms.py.  `threshold`,
`evaluationPeriods` and `period` are numeric scalars in the source and
are kept as their serialised strings here; `alarmDescription` is `none`
when the key is missing (the source uses `alarm.get(..., '')`). -/
structure Alarm where
  alarmName : String
  alarmDescription : Option String
  metricName : String
  statistic : String
  comparisonOperator : String
  threshold : String
  evaluationPeriods : String
  period : String
  dimensions : List (String × String)
  alarmActions : List String

/-- Header row written by `main` of cw_dump_alarms.py (lines 44-48). -/
def header : List String :=
  ["Account", "Region", "Name", "Description", "Metric", "Stat", "Op",
   "Thresh", "EvalPeriods", "Period", "Dimensions", "Action0",
   "Action0 SNS DisplayName", "Action0 SNS Subscriptions", "Action1",
   "Action1 SNS DisplayName", "Action1 SNS Subscriptions"]

/-- One data row written by `main` of cw_dump_alarms.py (lines 59-116):
dimensions joined as `Name=Value` pairs, the two action slots, and the
four SNS columns produced by the enrichment block. -/
def alarmRow (account region : String) (sns_client : SnsClient)
    (alarm : Alarm) : List String :=
  let dims := ",".intercalate
    (alarm.dimensions.map (fun d => d.1 ++ "=" ++ d.2))
  let a0 := action0 alarm.alarmActions
  let a1 := action1 alarm.alarmActions
  let s := snsFields sns_client a0 a1
  [account, region, alarm.alarmName, alarm.alarmDescription.getD "",
   alarm.metricName, pretty_statistic alarm.statistic,
   pretty_operator alarm.comparisonOperator, alarm.threshold,
   alarm.evaluationPeriods, alarm.period, dims,
   a0, s.1, s.2.1, a1, s.2.2.1, s.2.2.2]

/-- First demo topic ARN. -/
def topicA : String := "arn:aws:sns:eu-west-1:111122223333:topicA"

/-- Second demo topic ARN. -/
def topicB : String := "arn:aws:sns:eu-west-1:111122223333:topicB"

/-- A demo SNS client with two distinct topics: `topicA` has display name
`DNA` and one email subscription, `topicB` has display name `DNB` and one
sqs subscription. -/
def demoSnsClient : SnsClient :=
  { get_topic_attributes := fun t =>
      { displayName := if t = topicA then some "DNA" else some "DNB" }
    list_subscriptions_by_topic := fun t =>
      if t = topicA then [{ protocol := "email", endpoint := "x@a" }]
      else [{ protocol := "sqs", endpoint := "q-b" }] }

end CwAlarms

namespace Report

/-- The `for region in get_regions():` loop shared by `main` of
cfn_dump_resources.py, ssm_agent_audit.py and ssm_patching_audit.py.
`work region` is the region's unit of work: `Except.ok rows` when the
region's listing succeeds and its rows are written, `Except.error e`
when the listing raises a fatal transport or authorisation error.  The
loop body has no exception handler, so an error ends the whole loop; the
result is the list of rows written before the loop ended, together with
the propagated error if any. -/
def regionLoop (work : String → Except String (List (List String))) :
    List String → List (List String) × Option String
  | [] => ([], none)
  | r :: rs =>
    match work r with
    | Except.error e => ([], some e)
    | Except.ok rows =>
      let rest := regionLoop work rs
      (rows ++ rest.1, rest.2)

/-- Whether a region's work succeeds. -/
def regionOk (work : String → Except String (List (List String)))
    (r : String) : Bool :=
  match work r with
  | Except.ok _ => true
  | Except.error _ => false

/-- The rows a region's work yields (empty when it fails). -/
def regionRows (work : String → Except String (List (List String)))
    (r : String) : List (List String) :=
  match work r with
  | Except.ok rows => rows
  | Except.error _ => []

/-- The error of the first failing region, if any region fails. -/
def firstRegionErr (work : String → Except String (List (List String)))
    (rs : List String) : Option String :=
  match rs.dropWhile (regionOk work) with
  | [] => none
  | r :: _ =>
    match work r with
    | Except.error e => some e
    | Except.ok _ => none

/-- Demo fan-out input: region B's listing raises a fatal error, regions
A and C each yield one row. -/
def demoWork : String → Except String (List (List String)) :=
  fun r =>
    if r = "B" then Except.error "AccessDenied"
    else Except.ok [[r, "row"]]

end Report

namespace CfnDump

theorem decode_cursorFor (i : Nat) : decodeCursor (cursorFor i) = i := by
  cases i with
  | zero => rfl
  | succ j =>
    show (String.mk (List.replicate (j + 1) 'a')).length = j + 1
    show (List.replicate (j + 1) 'a').length = j + 1
    simp

theorem replicate_string_ne_empty (j : Nat) :
    String.mk (List.replicate (j + 1) 'a') ≠ "" := by
  intro h
  have h2 := congrArg String.data h
  simp at h2

theorem get_stacks_succ_eq (call : Option String → StackListResp α)
    (fuel : Nat) (cur : Option String) :
    get_stacks call (fuel + 1) cur =
      match (call cur).nextToken with
      | some t =>
        if t = "" then
          some ((call cur).stackSummaries, 1)
        else
          match get_stacks call fuel (some t) with
          | none => none
          | some (items, calls) => some ((call cur).stackSummaries ++ items, calls + 1)
      | none => some ((call cur).stackSummaries, 1) := rfl

theorem chainCall_items (ps : List (List α)) (i : Nat) (h : i < ps.length) :
    (chainCall ps (cursorFor i)).stackSummaries = ps[i] := by
  simp only [chainCall, decode_cursorFor]
  exact List.getD_eq_getElem ps [] h

theorem get_stacks_chain (ps : List (List α)) :
    ∀ k i, i + k + 1 = ps.length →
      get_stacks (chainCall ps) (k + 1) (cursorFor i) =
        some ((ps.drop i).flatten, k + 1) := by
  intro k
  induction k with
  | zero =>
    intro i hi
    have hlt : i < ps.length := by omega
    have hnext : ¬ (i + 1 < ps.length) := by omega
    have htok : (chainCall ps (cursorFor i)).nextToken = none := by
      simp [chainCall, decode_cursorFor, hnext]
    have hdrop : ps.drop i = ps[i] :: ps.drop (i + 1) :=
      List.drop_eq_getElem_cons hlt
    have hnil : ps.drop (i + 1) = [] := List.drop_of_length_le (by omega)
    rw [get_stacks_succ_eq, htok, chainCall_items ps i hlt, hdrop, hnil]
    simp
  | succ k ih =>
    intro i hi
    have hlt : i + 1 < ps.length := by omega
    have htok : (chainCall ps (cursorFor i)).nextToken =
        some (String.mk (List.replicate (i + 1) 'a')) := by
      simp [chainCall, decode_cursorFor, hlt]
    have hdrop : ps.drop i = ps[i] :: ps.drop (i + 1) :=
      List.drop_eq_getElem_cons (by omega)
    have hrec := ih (i + 1) (by omega)
    rw [get_stacks_succ_eq, htok, chainCall_items ps i (by omega)]
    have hcur : (some (String.mk (List.replicate (i + 1) 'a')) : Option String) =
        cursorFor (i + 1) := rfl
    simp only [if_neg (replicate_string_ne_empty i), hcur, hrec]
    rw [hdrop, List.flatten_cons]

theorem get_stacks_chain_complete (ps : List (List α)) (h : ps ≠ []) :
    get_stacks (chainCall ps) ps.length none = some (ps.flatten, ps.length) := by
  have hlen : 0 < ps.length := List.length_pos.mpr h
  have := get_stacks_chain ps (ps.length - 1) 0 (by omega)
  have hfuel : ps.length - 1 + 1 = ps.length := by omega
  rw [hfuel] at this
  simpa using this

theorem get_stacks_const_none : ∀ fuel cur,
    get_stacks constCall fuel cur = none := by
  intro fuel
  induction fuel with
  | zero => intro cur; rfl
  | succ n ih =>
    intro cur
    simp only [get_stacks, constCall]
    rw [if_neg (by decide : ¬ ("T" : String) = "")]
    rw [ih (some "T")]

theorem get_stacks_stop_none (items : List α) (fuel : Nat) (cur : Option String) :
    get_stacks (fun _ => { stackSummaries := items, nextToken := none })
      (fuel + 1) cur = some (items, 1) := rfl

theorem get_stacks_stop_empty (items : List α) (fuel : Nat) (cur : Option String) :
    get_stacks (fun _ => { stackSummaries := items, nextToken := some "" })
      (fuel + 1) cur = some (items, 1) := by
  simp [get_stacks]

end CfnDump

namespace SsmAgent

theorem get_instances_succ_eq (call : Option String → DescInstResp α)
    (fuel : Nat) (cur : Option String) :
    get_instances call (fuel + 1) cur =
      match (call cur).nextToken with
      | some t =>
        if t = "" then
          some ((((call cur).reservations).map (fun r => r.instances)).flatten, 1)
        else
          match get_instances call fuel (some t) with
          | none => none
          | some (items, calls) =>
            some ((((call cur).reservations).map (fun r => r.instances)).flatten ++ items,
              calls + 1)
      | none => some ((((call cur).reservations).map (fun r => r.instances)).flatten, 1) := rfl

theorem get_instances_eq (call : Option String → DescInstResp α) :
    ∀ fuel cur, get_instances call fuel cur =
      CfnDump.get_stacks (instReduce call) fuel cur := by
  intro fuel
  induction fuel with
  | zero => intro cur; rfl
  | succ n ih =>
    intro cur
    rw [get_instances_succ_eq, CfnDump.get_stacks_succ_eq]
    simp only [ih]
    rfl

theorem getD_map_flatten (qs : List (List (List α))) :
    ∀ i, (qs.map List.flatten).getD i [] = (qs.getD i []).flatten := by
  induction qs with
  | nil => intro i; simp [List.getD]
  | cons q qt ih =>
    intro i
    cases i with
    | zero => rfl
    | succ j => exact ih j

theorem instReduce_chain (qs : List (List (List α))) :
    instReduce (chainCallInst qs) = CfnDump.chainCall (qs.map List.flatten) := by
  funext cur
  simp only [instReduce, chainCallInst, CfnDump.chainCall]
  congr 1
  · rw [getD_map_flatten, List.map_map]
    rw [show ((fun (r : Reservation α) => r.instances) ∘
        fun l => ({ instances := l } : Reservation α)) = id from rfl]
    rw [List.map_id]
  · simp [List.length_map]

theorem get_instances_chain_complete (qs : List (List (List α))) (h : qs ≠ []) :
    get_instances (chainCallInst qs) qs.length none =
      some ((qs.map List.flatten).flatten, qs.length) := by
  rw [get_instances_eq, instReduce_chain]
  have hne : qs.map List.flatten ≠ [] := by
    simpa using h
  have := CfnDump.get_stacks_chain_complete (qs.map List.flatten) hne
  simpa [List.length_map] using this

end SsmAgent

namespace SsmPatch

theorem get_maintenance_windows_const_none : ∀ fuel cur,
    get_maintenance_windows constMwCall fuel cur = none := by
  intro fuel
  induction fuel with
  | zero => intro cur; rfl
  | succ n ih =>
    intro cur
    simp only [get_maintenance_windows, constMwCall]
    rw [if_neg (by decide : ¬ ("T" : String) = "")]
    rw [ih (some "T")]

end SsmPatch

namespace Report

theorem regionLoop_spec (work : String → Except String (List (List String))) :
    ∀ rs, regionLoop work rs =
      (((rs.takeWhile (regionOk work)).map (regionRows work)).flatten,
       firstRegionErr work rs) := by
  intro rs
  induction rs with
  | nil => rfl
  | cons r rt ih =>
    cases h : work r with
    | error e =>
      have hok : regionOk work r = false := by simp [regionOk, h]
      simp [regionLoop, h, firstRegionErr, List.takeWhile_cons, List.dropWhile_cons, hok]
    | ok rows =>
      have hok : regionOk work r = true := by simp [regionOk, h]
      have hrows : regionRows work r = rows := by simp [regionRows, h]
      simp only [regionLoop, h]
      rw [ih]
      simp [firstRegionErr, List.takeWhile_cons, List.dropWhile_cons, hok, hrows]

end Report

/-- C1: over a paged source whose responses chain cursors correctly, the
pagination generators `get_stacks` and `get_instances` yield exactly the
concatenation of the items of all pages in page order, making one call per
page; the loop starts with the cursor-less call by definition, re-issues
the call exactly while the returned `NextToken` is present and non-empty,
and a response whose `NextToken` is absent, or present but empty, ends the
pagination after one further yield. -/
theorem c1_pagination_complete (ps : List (List String))
    (qs : List (List (List String))) (items : List String)
    (cur : Option String) (fuel : Nat) (hp : ps ≠ []) (hq : qs ≠ []) :
    CfnDump.get_stacks (CfnDump.chainCall ps) ps.length none =
      some (ps.flatten, ps.length) ∧
    SsmAgent.get_instances (SsmAgent.chainCallInst qs) qs.length none =
      some ((qs.map List.flatten).flatten, qs.length) ∧
    CfnDump.get_stacks (fun _ => { stackSummaries := items, nextToken := none })
      (fuel + 1) cur = some (items, 1) ∧
    CfnDump.get_stacks (fun _ => { stackSummaries := items, nextToken := some "" })
      (fuel + 1) cur = some (items, 1) :=
  ⟨CfnDump.get_stacks_chain_complete ps hp,
   SsmAgent.get_instances_chain_complete qs hq,
   CfnDump.get_stacks_stop_none items fuel cur,
   CfnDump.get_stacks_stop_empty items fuel cur⟩

/-- Witness for C1 at a concrete two-page source: two stack pages of sizes
2 and 1, and two instance pages holding two and one reservations. -/
theorem c1_pagination_complete_witness :
    ([["s1", "s2"], ["s3"]] : List (List String)) ≠ [] ∧
    ([[["i1"], ["i2", "i3"]], [["i4"]]] : List (List (List String))) ≠ [] ∧
    CfnDump.get_stacks (CfnDump.chainCall [["s1", "s2"], ["s3"]]) 2 none =
      some (["s1", "s2", "s3"], 2) ∧
    SsmAgent.get_instances
      (SsmAgent.chainCallInst [[["i1"], ["i2", "i3"]], [["i4"]]]) 2 none =
      some (["i1", "i2", "i3", "i4"], 2) := by
  have h := c1_pagination_complete [["s1", "s2"], ["s3"]]
    [[["i1"], ["i2", "i3"]], [["i4"]]] ["x"] none 0 (by decide) (by decide)
  exact ⟨by decide, by decide, h.1, h.2.1⟩

/-- C2 counterexample: the claim states that pagination terminates (with a
fatal error) on every source whose cursor sequence eventually repeats.  On
the mock sources that always return the same non-empty cursor, the
generators never finish within any number of loop iterations and raise
nothing: the `while next_token:` loops of the source contain no
repeated-cursor check and no raise, so they loop forever. -/
theorem c2_cursor_repeat_counterexample :
    (¬ ∃ fuel out, CfnDump.get_stacks CfnDump.constCall fuel none = some out) ∧
    (¬ ∃ fuel out,
      SsmPatch.get_maintenance_windows SsmPatch.constMwCall fuel none = some out) := by
  constructor
  · rintro ⟨fuel, out, h⟩
    rw [CfnDump.get_stacks_const_none fuel none] at h
    exact Option.noConfusion h
  · rintro ⟨fuel, out, h⟩
    rw [SsmPatch.get_maintenance_windows_const_none fuel none] at h
    exact Option.noConfusion h

/-- C2 amended: the pagination generators contain no repeated-cursor
detection and no error path; on a source that always returns the same
non-empty cursor they loop forever (no number of loop iterations
completes them), and they terminate exactly when a response carries an
absent or empty `NextToken`. -/
theorem c2_cursor_repeat_amended (fuel : Nat) (cur : Option String)
    (items : List String) :
    CfnDump.get_stacks CfnDump.constCall fuel cur = none ∧
    SsmPatch.get_maintenance_windows SsmPatch.constMwCall fuel cur = none ∧
    CfnDump.get_stacks (fun _ => { stackSummaries := items, nextToken := none })
      (fuel + 1) cur = some (items, 1) ∧
    CfnDump.get_stacks (fun _ => { stackSummaries := items, nextToken := some "" })
      (fuel + 1) cur = some (items, 1) :=
  ⟨CfnDump.get_stacks_const_none fuel cur,
   SsmPatch.get_maintenance_windows_const_none fuel cur,
   CfnDump.get_stacks_stop_none items fuel cur,
   CfnDump.get_stacks_stop_empty items fuel cur⟩

/-- C3 counterexample: with regions A, B, C where the listing of B raises
a fatal error, the claim states that the rows of every other region are
still emitted; the region loop instead emits the row of A only and the
row of C never appears, because the uncaught error ends the loop. -/
theorem c3_fanout_counterexample :
    Report.regionLoop Report.demoWork ["A", "B", "C"] =
      ([["A", "row"]], some "AccessDenied") ∧
    ["C", "row"] ∉ (Report.regionLoop Report.demoWork ["A", "B", "C"]).1 := by
  constructor
  · rfl
  · decide

/-- C3 amended: the region loop has no per-region exception handling: it
emits the rows of the regions processed before the first failing region,
and the first failing region's error propagates, aborting the run, so no
later region's rows are produced. -/
theorem c3_fanout_amended (work : String → Except String (List (List String)))
    (rs : List String) :
    Report.regionLoop work rs =
      (((rs.takeWhile (Report.regionOk work)).map (Report.regionRows work)).flatten,
       Report.firstRegionErr work rs) :=
  Report.regionLoop_spec work rs

/-- C4: when a maintenance window has no tasks, `get_maint_window_task`
returns the empty string (after its single listing call), and each later
stage of the chain, given its empty prerequisite, returns its empty result
while making zero remote calls. -/
theorem c4_chain_short_circuit (client : SsmPatch.SsmClient) (w : String)
    (h : (client.describe_maintenance_window_tasks w).tasks = []) :
    SsmPatch.get_maint_window_task client w = ("", 1) ∧
    SsmPatch.get_task_info client w "" = Except.ok (("", "", ""), 0) ∧
    SsmPatch.get_target_patch_tag client w "" = Except.ok ("", 0) ∧
    SsmPatch.get_baseline_id client "" = ("", 0) ∧
    SsmPatch.get_baseline_info client "" = Except.ok (("", "", "", "", ""), 0) := by
  refine ⟨?_, rfl, rfl, rfl, rfl⟩
  simp [SsmPatch.get_maint_window_task, h]

/-- Witness for C4 at the concrete client whose window has no tasks. -/
theorem c4_chain_short_circuit_witness :
    (SsmPatch.emptySsmClient.describe_maintenance_window_tasks "mw-1").tasks = [] ∧
    SsmPatch.get_maint_window_task SsmPatch.emptySsmClient "mw-1" = ("", 1) ∧
    SsmPatch.get_task_info SsmPatch.emptySsmClient "mw-1" "" =
      Except.ok (("", "", ""), 0) ∧
    SsmPatch.get_target_patch_tag SsmPatch.emptySsmClient "mw-1" "" =
      Except.ok ("", 0) ∧
    SsmPatch.get_baseline_id SsmPatch.emptySsmClient "" = ("", 0) ∧
    SsmPatch.get_baseline_info SsmPatch.emptySsmClient "" =
      Except.ok (("", "", "", "", ""), 0) := by
  have h := c4_chain_short_circuit SsmPatch.emptySsmClient "mw-1" rfl
  exact ⟨rfl, h.1, h.2.1, h.2.2.1, h.2.2.2.1, h.2.2.2.2⟩

/-- C5 evaluated at the failing inputs: a task whose `Targets` list has no
`WindowTargetIds` entry, a window target without a `tag:Patch Group` tag
and a baseline without an `MSRC_SEVERITY` filter each raise StopIteration
from `next(...)`, which no handler of the respective function catches, so
the step does not degrade to the empty string and the parent's row is
never written. -/
theorem c5_malformed_uncaught :
    SsmPatch.get_task_info SsmPatch.malformedSsmClient "mw-1" "task-1" =
      Except.error PyErr.stopIteration ∧
    SsmPatch.get_target_patch_tag SsmPatch.malformedSsmClient "mw-1" "tgt-1" =
      Except.error PyErr.stopIteration ∧
    SsmPatch.get_baseline_info SsmPatch.malformedSsmClient "bl-1" =
      Except.error PyErr.stopIteration :=
  ⟨rfl, rfl, rfl⟩

/-- C6: every data row of every report has exactly as many fields as that
report's header row, for every input: the stack-resource rows all have the
7 header fields, the src variant emits no data row at all (its inner loop
iterates the empty string), the alarm row has the 17 header fields, the
maintenance-window row the 16 header fields and the agent row the 9
header fields; and with every enrichment absent the maintenance-window
row carries the empty string in all 13 enrichment positions. -/
theorem c6_row_width (region account maint_window_id instanceId instName
    platform : String) (stackList : List CfnDump.Stack)
    (resourcesOf : String → List CfnDump.Resource)
    (sns : CwAlarms.SnsClient) (alarm : CwAlarms.Alarm)
    (info task_info : String × String × String)
    (task_id patch_tag baseline_id : String)
    (baseline_info ssm : String × String × String × String × String) :
    (CfnDump.rowsFor region stackList resourcesOf).all
      (fun row => row.length == CfnDump.header.length) = true ∧
    CfnDumpSrc.rowsFor region stackList resourcesOf = [] ∧
    (CwAlarms.alarmRow account region sns alarm).length =
      CwAlarms.header.length ∧
    (SsmPatch.mwRow account region maint_window_id info task_id task_info
      patch_tag baseline_id baseline_info).length = SsmPatch.header.length ∧
    (SsmAgent.instanceRow region instanceId instName platform ssm).length =
      SsmAgent.header.length ∧
    SsmPatch.mwRow account region maint_window_id ("", "", "") ""
      ("", "", "") "" "" ("", "", "", "", "") =
      [account, region, maint_window_id, "", "", "", "", "", "", "", "", "",
       "", "", "", ""] := by
  refine ⟨?_, ?_, rfl, rfl, rfl, rfl⟩
  · rw [List.all_eq_true]
    intro row hrow
    simp only [CfnDump.rowsFor, List.mem_flatten, List.mem_map] at hrow
    obtain ⟨rows, ⟨stack, hs, rfl⟩, hr⟩ := hrow
    obtain ⟨resource, hres, rfl⟩ := List.mem_map.mp hr
    rfl
  · simp [CfnDumpSrc.rowsFor, CfnDumpSrc.get_resources, List.flatten_eq_nil_iff]

/-- C7 evaluated on the end-to-end example: one stack with two resources,
the second lacking a physical resource ID.  The
aws_reporting_scripts variant emits one full row per resource, the second
with the sentinel in its physical-ID field; the src variant emits no row
at all although the remote reports two resources, because its
`get_resources` returns the empty string. -/
theorem c7_resource_rows :
    CfnDump.rowsFor "eu-west-1" [CfnDump.stack1] (fun _ => CfnDump.demoResources) =
      [["eu-west-1", "stack1name", "r1", "AWS::EC2::Instance", "p-1",
        "stack-id-1", "CREATE_COMPLETE"],
       ["eu-west-1", "stack1name", "r2", "AWS::EC2::VPC", "[Deleted]",
        "stack-id-1", "CREATE_COMPLETE"]] ∧
    CfnDumpSrc.rowsFor "eu-west-1" [CfnDump.stack1]
      (fun _ => CfnDump.demoResources) = [] :=
  ⟨rfl, rfl⟩

/-- C8: the two alarm action slots read only the first two elements of the
action list (two lists agreeing on their first two elements produce the
same slots), an out-of-range slot resolves to the default marker instead
of an error, the in-range slots are the listed actions; and the first
maintenance-window task selection reads only the first task. -/
theorem c8_fixed_width_slicing (l l2 : List String) (a b c : String)
    (cl cl2 : SsmPatch.SsmClient) (w : String)
    (h : l.take 2 = l2.take 2)
    (h2 : (cl.describe_maintenance_window_tasks w).tasks.take 1 =
          (cl2.describe_maintenance_window_tasks w).tasks.take 1) :
    (CwAlarms.action0 l = CwAlarms.action0 l2 ∧
     CwAlarms.action1 l = CwAlarms.action1 l2) ∧
    (CwAlarms.action0 [] = "No action" ∧ CwAlarms.action1 [] = "No action") ∧
    (CwAlarms.action0 [a] = a ∧ CwAlarms.action1 [a] = "No action") ∧
    (CwAlarms.action0 [a, b, c] = a ∧ CwAlarms.action1 [a, b, c] = b) ∧
    SsmPatch.get_maint_window_task cl w = SsmPatch.get_maint_window_task cl2 w := by
  have g0 : ∀ (x : List String), x[0]? = (x.take 2)[0]? := by
    intro x; simp [List.getElem?_take]
  have g1 : ∀ (x : List String), x[1]? = (x.take 2)[1]? := by
    intro x; simp [List.getElem?_take]
  have ht : ∀ (ts : List SsmPatch.Task), ts.head? = (ts.take 1).head? := by
    intro ts; cases ts <;> rfl
  refine ⟨⟨?_, ?_⟩, ⟨rfl, rfl⟩, ⟨rfl, rfl⟩, ⟨rfl, rfl⟩, ?_⟩
  · unfold CwAlarms.action0
    rw [g0 l, g0 l2, h]
  · unfold CwAlarms.action1
    rw [g1 l, g1 l2, h]
  · have hh : (cl.describe_maintenance_window_tasks w).tasks.head? =
        (cl2.describe_maintenance_window_tasks w).tasks.head? := by
      rw [ht (cl.describe_maintenance_window_tasks w).tasks,
          ht (cl2.describe_maintenance_window_tasks w).tasks, h2]
    simp [SsmPatch.get_maint_window_task, hh]

/-- Witness for C8 at concrete inputs: the slots of a three-action list
equal those of its two-action prefix, the boundary cases at zero, one and
three actions, and two clients agreeing on the first task only give the
same first-task selection. -/
theorem c8_fixed_width_slicing_witness :
    (CwAlarms.action0 ["x", "y", "z"] = CwAlarms.action0 ["x", "y"] ∧
     CwAlarms.action1 ["x", "y", "z"] = CwAlarms.action1 ["x", "y"]) ∧
    (CwAlarms.action0 [] = "No action" ∧ CwAlarms.action1 [] = "No action") ∧
    (CwAlarms.action0 ["a"] = "a" ∧ CwAlarms.action1 ["a"] = "No action") ∧
    (CwAlarms.action0 ["a", "b", "c"] = "a" ∧
     CwAlarms.action1 ["a", "b", "c"] = "b") ∧
    SsmPatch.get_maint_window_task SsmPatch.clientTwoTasks "mw" =
      SsmPatch.get_maint_window_task SsmPatch.clientOneTask "mw" :=
  c8_fixed_width_slicing ["x", "y", "z"] ["x", "y"] "a" "b" "c"
    SsmPatch.clientTwoTasks SsmPatch.clientOneTask "mw" rfl rfl

/-- C9 evaluated at an alarm whose two actions are the distinct SNS topics
`topicA` and `topicB`: the enrichment block writes `topicA`'s display name
and subscriptions into the two Action0 columns, leaves both Action1
columns empty, and in particular the Action1 columns do not hold
`topicB`'s display name or subscription list as the claim states —
because the source's second branch assigns `action0_sns_subscriptions`
from `TopicArn=action0` and never assigns the Action1 variables. -/
theorem c9_second_action_dropped :
    CwAlarms.snsFields CwAlarms.demoSnsClient CwAlarms.topicA CwAlarms.topicB =
      ("DNA", "email: x@a", "", "") ∧
    (CwAlarms.snsFields CwAlarms.demoSnsClient CwAlarms.topicA CwAlarms.topicB).2.2.1 ≠
      CwAlarms.get_topic_name CwAlarms.demoSnsClient CwAlarms.topicB ∧
    (CwAlarms.snsFields CwAlarms.demoSnsClient CwAlarms.topicA CwAlarms.topicB).2.2.2 ≠
      CwAlarms.joinSubscriptions
        (CwAlarms.demoSnsClient.list_subscriptions_by_topic CwAlarms.topicB) := by
  refine ⟨?_, ?_, ?_⟩ <;> decide

/-- C10: `pretty_statistic` and `pretty_operator` are total functions that
leave every string outside their translation tables unchanged and map the
known inputs to their abbreviations. -/
theorem c10_pretty_translations (s t : String)
    (hs1 : s ≠ "Average") (hs2 : s ≠ "Maximum") (hs3 : s ≠ "Minimum")
    (ht1 : t ≠ "GreaterThanOrEqualToThreshold")
    (ht2 : t ≠ "GreaterThanThreshold")
    (ht3 : t ≠ "LessThanOrEqualToThreshold")
    (ht4 : t ≠ "LessThanThreshold") :
    CwAlarms.pretty_statistic s = s ∧
    CwAlarms.pretty_operator t = t ∧
    CwAlarms.pretty_statistic "Average" = "avg" ∧
    CwAlarms.pretty_statistic "Maximum" = "max" ∧
    CwAlarms.pretty_statistic "Minimum" = "min" ∧
    CwAlarms.pretty_operator "GreaterThanOrEqualToThreshold" = ">=" ∧
    CwAlarms.pretty_operator "GreaterThanThreshold" = ">" ∧
    CwAlarms.pretty_operator "LessThanOrEqualToThreshold" = "<=" ∧
    CwAlarms.pretty_operator "LessThanThreshold" = "<" := by
  have e1 : (s == "Average") = false := beq_eq_false_iff_ne.mpr hs1
  have e2 : (s == "Maximum") = false := beq_eq_false_iff_ne.mpr hs2
  have e3 : (s == "Minimum") = false := beq_eq_false_iff_ne.mpr hs3
  have f1 : (t == "GreaterThanOrEqualToThreshold") = false :=
    beq_eq_false_iff_ne.mpr ht1
  have f2 : (t == "GreaterThanThreshold") = false := beq_eq_false_iff_ne.mpr ht2
  have f3 : (t == "LessThanOrEqualToThreshold") = false :=
    beq_eq_false_iff_ne.mpr ht3
  have f4 : (t == "LessThanThreshold") = false := beq_eq_false_iff_ne.mpr ht4
  refine ⟨?_, ?_, rfl, rfl, rfl, rfl, rfl, rfl, rfl⟩
  · simp [CwAlarms.pretty_statistic, List.lookup, e1, e2, e3]
  · simp [CwAlarms.pretty_operator, List.lookup, f1, f2, f3, f4]

/-- Witness for C10 at concrete strings outside the tables. -/
theorem c10_pretty_translations_witness :
    CwAlarms.pretty_statistic "Sum" = "Sum" ∧
    CwAlarms.pretty_operator "Missing" = "Missing" ∧
    CwAlarms.pretty_statistic "Average" = "avg" ∧
    CwAlarms.pretty_statistic "Maximum" = "max" ∧
    CwAlarms.pretty_statistic "Minimum" = "min" ∧
    CwAlarms.pretty_operator "GreaterThanOrEqualToThreshold" = ">=" ∧
    CwAlarms.pretty_operator "GreaterThanThreshold" = ">" ∧
    CwAlarms.pretty_operator "LessThanOrEqualToThreshold" = "<=" ∧
    CwAlarms.pretty_operator "LessThanThreshold" = "<" :=
  c10_pretty_translations "Sum" "Missing" (by decide) (by decide) (by decide)
    (by decide) (by decide) (by decide) (by decide)
